import Mathlib

/-!
Verification of the libgit2 submodule subsystem (include/git2/submodule.h).

The header defines the status bitmask layout (`git_submodule_status_t`),
the three mask constants and the four derived-predicate macros; those are
embedded below directly from the header.  The status engine, source
locator and add lifecycle are declared in the header and described in the
specification; they are modelled from the specification where noted.
-/

namespace Submodule

/-! ## Status flag constants, from `git_submodule_status_t` in submodule.h -/

def GIT_SUBMODULE_STATUS_IN_HEAD : Nat := 1 <<< 0
def GIT_SUBMODULE_STATUS_IN_INDEX : Nat := 1 <<< 1
def GIT_SUBMODULE_STATUS_IN_CONFIG : Nat := 1 <<< 2
def GIT_SUBMODULE_STATUS_IN_WD : Nat := 1 <<< 3
def GIT_SUBMODULE_STATUS_INDEX_ADDED : Nat := 1 <<< 4
def GIT_SUBMODULE_STATUS_INDEX_DELETED : Nat := 1 <<< 5
def GIT_SUBMODULE_STATUS_INDEX_MODIFIED : Nat := 1 <<< 6
def GIT_SUBMODULE_STATUS_WD_UNINITIALIZED : Nat := 1 <<< 7
def GIT_SUBMODULE_STATUS_WD_ADDED : Nat := 1 <<< 8
def GIT_SUBMODULE_STATUS_WD_DELETED : Nat := 1 <<< 9
def GIT_SUBMODULE_STATUS_WD_MODIFIED : Nat := 1 <<< 10
def GIT_SUBMODULE_STATUS_WD_INDEX_MODIFIED : Nat := 1 <<< 11
def GIT_SUBMODULE_STATUS_WD_WD_MODIFIED : Nat := 1 <<< 12
def GIT_SUBMODULE_STATUS_WD_UNTRACKED : Nat := 1 <<< 13

def GIT_SUBMODULE_STATUS__IN_FLAGS : Nat := 0x000F
def GIT_SUBMODULE_STATUS__INDEX_FLAGS : Nat := 0x0070
def GIT_SUBMODULE_STATUS__WD_FLAGS : Nat := 0x3F80

/-- Width of the C `unsigned int` carrying a status bitmask. -/
def UINT_MASK : Nat := 2 ^ 32 - 1

/-! ## Derived-predicate macros, from submodule.h.
`~M` on a C `unsigned int` is `UINT_MASK ^^^ M`. -/

def GIT_SUBMODULE_STATUS_IS_UNMODIFIED (S : Nat) : Bool :=
  (S &&& (UINT_MASK ^^^ GIT_SUBMODULE_STATUS__IN_FLAGS)) == 0

def GIT_SUBMODULE_STATUS_IS_INDEX_UNMODIFIED (S : Nat) : Bool :=
  (S &&& GIT_SUBMODULE_STATUS__INDEX_FLAGS) == 0

def GIT_SUBMODULE_STATUS_IS_WD_UNMODIFIED (S : Nat) : Bool :=
  (S &&& (GIT_SUBMODULE_STATUS__WD_FLAGS &&&
    (UINT_MASK ^^^ GIT_SUBMODULE_STATUS_WD_UNINITIALIZED))) == 0

def GIT_SUBMODULE_STATUS_IS_WD_DIRTY (S : Nat) : Bool :=
  (S &&& (GIT_SUBMODULE_STATUS_WD_INDEX_MODIFIED |||
    GIT_SUBMODULE_STATUS_WD_WD_MODIFIED |||
    GIT_SUBMODULE_STATUS_WD_UNTRACKED)) != 0

/-! ## The data model -/

/-- Ignore policy for a submodule, from `git_submodule_ignore_t`
(documented with `git_submodule_ignore` in submodule.h):
NONE > UNTRACKED > DIRTY > ALL in decreasing inspection depth. -/
inductive Ignore where
  | none
  | untracked
  | dirty
  | all
deriving DecidableEq

/-- Modelled from the spec: the Submodule Descriptor entity of section 3
(struct git_submodule, whose definition is not under src/).  Only the
fields the status engine reads are kept: the three identifiers, the four
presence flags, and the ignore policy. -/
structure Descriptor where
  head_id : Option Nat
  index_id : Option Nat
  wd_id : Option Nat
  in_head : Bool
  in_index : Bool
  in_config : Bool
  in_wd : Bool
  ignore : Ignore

/-- Modelled from the spec: the facts about the on-disk checkout that the
status engine consults (working-directory classification and the deep
inspection of section 4.3; the implementation is not under src/). -/
structure WorkdirState where
  path_exists : Bool
  has_commits : Bool
  openable : Bool
  index_dirty : Bool
  wt_modified : Bool
  untracked : Bool

/-! ## Status engine (section 4.3) -/

/-- Modelled from the spec: `git_submodule_location` (declared in
submodule.h, implementation not under src/) — the four location bits set
from the presence flags alone. -/
def git_submodule_location (d : Descriptor) : Nat :=
  (cond d.in_head GIT_SUBMODULE_STATUS_IN_HEAD 0) |||
  (cond d.in_index GIT_SUBMODULE_STATUS_IN_INDEX 0) |||
  (cond d.in_config GIT_SUBMODULE_STATUS_IN_CONFIG 0) |||
  (cond d.in_wd GIT_SUBMODULE_STATUS_IN_WD 0)

/-- Modelled from the spec: the index-vs-head classification of section
4.3 (implementation not under src/): both present and equal gives no bit;
only index gives INDEX_ADDED; only head gives INDEX_DELETED; both present
and different gives INDEX_MODIFIED. -/
def indexStatus (d : Descriptor) : Nat :=
  match d.index_id, d.head_id with
  | some i, some h =>
      if i = h then 0 else GIT_SUBMODULE_STATUS_INDEX_MODIFIED
  | some _, none => GIT_SUBMODULE_STATUS_INDEX_ADDED
  | none, some _ => GIT_SUBMODULE_STATUS_INDEX_DELETED
  | none, none => 0

/-- Modelled from the spec: the comparison base for the working-directory
classification — index_id, falling back to head_id when absent. -/
def baseId (d : Descriptor) : Option Nat :=
  match d.index_id with
  | some i => some i
  | none => d.head_id

/-- Modelled from the spec: the working-directory classification of
section 4.3 (implementation not under src/): an existing path whose
nested repository has no commits yet is WD_UNINITIALIZED; otherwise
wd_id is compared to the base identifier. -/
def wdStatus (d : Descriptor) (w : WorkdirState) : Nat :=
  if w.path_exists && !w.has_commits then GIT_SUBMODULE_STATUS_WD_UNINITIALIZED
  else
    match d.wd_id, baseId d with
    | some a, some b =>
        if a = b then 0 else GIT_SUBMODULE_STATUS_WD_MODIFIED
    | some _, none => GIT_SUBMODULE_STATUS_WD_ADDED
    | none, some _ => GIT_SUBMODULE_STATUS_WD_DELETED
    | none, none => 0

/-- Modelled from the spec: the deep inspection gate of section 4.3
(implementation not under src/).  It runs only for ignore NONE or
UNTRACKED; an unopenable nested repository degrades to no deep bits;
untracked-file inspection runs only for ignore NONE. -/
def deepStatus (d : Descriptor) (w : WorkdirState) : Nat :=
  match d.ignore with
  | Ignore.none =>
      if w.openable then
        (cond w.index_dirty GIT_SUBMODULE_STATUS_WD_INDEX_MODIFIED 0) |||
        (cond w.wt_modified GIT_SUBMODULE_STATUS_WD_WD_MODIFIED 0) |||
        (cond w.untracked GIT_SUBMODULE_STATUS_WD_UNTRACKED 0)
      else 0
  | Ignore.untracked =>
      if w.openable then
        (cond w.index_dirty GIT_SUBMODULE_STATUS_WD_INDEX_MODIFIED 0) |||
        (cond w.wt_modified GIT_SUBMODULE_STATUS_WD_WD_MODIFIED 0)
      else 0
  | _ => 0

/-- Modelled from the spec: `git_submodule_status` (declared in
submodule.h, implementation not under src/).  The location bits are
always set; with ignore ALL the engine stops there; otherwise the
index-vs-head, working-directory and deep-inspection classifications are
combined into the bitmask. -/
def git_submodule_status (d : Descriptor) (w : WorkdirState) : Nat :=
  git_submodule_location d |||
  (if d.ignore = Ignore.all then 0
   else indexStatus d ||| wdStatus d w ||| deepStatus d w)

/-- Modelled from the spec: whether a status query opens the nested
repository.  Section 4.3 opens it exactly for the deep inspection gate,
which runs only when ignore is NONE or UNTRACKED. -/
def status_opens_nested (d : Descriptor) : Bool :=
  match d.ignore with
  | Ignore.none => true
  | Ignore.untracked => true
  | _ => false

/-! ## Source locator and lifecycle (sections 4.1, 4.4, 7) -/

/-- Error taxonomy of section 7 (the numeric codes of errors.h are not
under src/; submodule.h documents GIT_ENOTFOUND and GIT_EEXISTS for
lookup). -/
inductive GitError where
  | notFound
  | existsUnregistered
  | alreadyExists
  | invalidState
deriving DecidableEq

/-- Modelled from the spec: what the four sources say about one
name-or-path (section 4.1; the source locator implementation is not
under src/).  A gitlink entry that exists may carry a null identifier,
so HEAD and index entries are an optional entry holding an optional
identifier. -/
structure SourceState where
  config : Bool
  head_entry : Option (Option Nat)
  index_entry : Option (Option Nat)
  wd_marker : Bool
  nested_head : Option Nat
deriving DecidableEq

/-- Modelled from the spec: the source locator merge of section 4.1
(implementation not under src/).  Presence flags come from entry
existence, never solely from identifier presence; wd_id is the resolved
HEAD of the checked-out nested repository, absent if not checked out. -/
def merge (s : SourceState) : Descriptor :=
  { head_id := Option.join s.head_entry
    index_id := Option.join s.index_entry
    wd_id := cond s.wd_marker s.nested_head Option.none
    in_head := s.head_entry.isSome
    in_index := s.index_entry.isSome
    in_config := s.config
    in_wd := s.wd_marker
    ignore := Ignore.none }

/-- Modelled from the spec: `git_submodule_lookup` (declared in
submodule.h, implementation not under src/).  If any of the three
authoritative sources confirms the submodule the merged descriptor is
returned; otherwise a nested-repository marker on disk yields
ExistsUnregistered (GIT_EEXISTS) and nothing at all yields NotFound
(GIT_ENOTFOUND). -/
def git_submodule_lookup (s : SourceState) : Except GitError Descriptor :=
  if s.config || s.head_entry.isSome || s.index_entry.isSome then
    Except.ok (merge s)
  else if s.wd_marker then Except.error GitError.existsUnregistered
  else Except.error GitError.notFound

/-- Modelled from the spec: `git_submodule_add_setup` (declared in
submodule.h, implementation not under src/).  Fails with AlreadyExists
when the path is already tracked; otherwise writes the reserving
declaration entry and creates an empty, commit-less nested repository at
the path. -/
def git_submodule_add_setup (s : SourceState) : Except GitError SourceState :=
  if s.config || s.head_entry.isSome || s.index_entry.isSome then
    Except.error GitError.alreadyExists
  else
    Except.ok { s with config := true, wd_marker := true,
                       nested_head := Option.none }

/-- Modelled from the spec: the external clone/commit step between the
two add phases — the nested repository acquires a HEAD commit. -/
def commitInNested (s : SourceState) (c : Nat) : SourceState :=
  { s with nested_head := some c }

/-- Modelled from the spec: `git_submodule_add_finalize` (declared in
submodule.h, implementation not under src/).  Fails with InvalidState
when the nested repository has no commits yet; otherwise stages the
gitlink entry with the nested repository's current HEAD identifier into
the parent index. -/
def git_submodule_add_finalize (s : SourceState) : Except GitError SourceState :=
  match s.nested_head with
  | Option.none => Except.error GitError.invalidState
  | some h => Except.ok { s with index_entry := some (some h) }

/-- Modelled from the spec: `git_submodule_set_ignore` (declared in
submodule.h, implementation not under src/): sets the in-memory ignore
rule and returns the old value. -/
def git_submodule_set_ignore (d : Descriptor) (ig : Ignore) :
    Descriptor × Ignore :=
  ({ d with ignore := ig }, d.ignore)

/-- Modelled from the spec: the descriptors reachable in the model —
produced by a successful lookup merge or by the add-setup provisional
merge, and closed under the in-memory ignore setter. -/
inductive Reachable : Descriptor → Prop where
  | of_lookup (s : SourceState) (d : Descriptor) :
      git_submodule_lookup s = Except.ok d → Reachable d
  | of_add_setup (s s' : SourceState) :
      git_submodule_add_setup s = Except.ok s' → Reachable (merge s')
  | of_set_ignore (d : Descriptor) (ig : Ignore) :
      Reachable d → Reachable (git_submodule_set_ignore d ig).1

/-! ## Concrete example inputs used to instantiate the theorems -/

/-- A descriptor staged in the index at identifier 2 while HEAD holds 1. -/
def exD2 : Descriptor :=
  { head_id := some 1, index_id := some 2, wd_id := Option.none,
    in_head := true, in_index := true, in_config := true, in_wd := false,
    ignore := Ignore.none }

/-- A clean checkout whose nested repository is open and quiet. -/
def exW2 : WorkdirState :=
  { path_exists := true, has_commits := true, openable := true,
    index_dirty := false, wt_modified := false, untracked := false }

/-- A fully present descriptor with ignore policy DIRTY. -/
def exD3 : Descriptor :=
  { head_id := some 1, index_id := some 1, wd_id := some 1,
    in_head := true, in_index := true, in_config := true, in_wd := true,
    ignore := Ignore.dirty }

/-- A checkout holding one untracked file in the nested repository. -/
def exW3 : WorkdirState :=
  { path_exists := true, has_commits := true, openable := true,
    index_dirty := false, wt_modified := false, untracked := true }

/-- A descriptor with ignore policy ALL. -/
def exD4 : Descriptor :=
  { head_id := some 1, index_id := some 1, wd_id := some 1,
    in_head := true, in_index := true, in_config := true, in_wd := true,
    ignore := Ignore.all }

/-- A checkout that cannot be opened (unreadable or corrupt). -/
def exW4a : WorkdirState :=
  { path_exists := true, has_commits := false, openable := false,
    index_dirty := true, wt_modified := true, untracked := true }

/-- A healthy, dirty checkout, to contrast with `exW4a`. -/
def exW4b : WorkdirState :=
  { path_exists := true, has_commits := true, openable := true,
    index_dirty := true, wt_modified := true, untracked := true }

/-- A descriptor absent from every source, used with ignore overrides. -/
def exD8 : Descriptor :=
  { head_id := Option.none, index_id := Option.none, wd_id := Option.none,
    in_head := false, in_index := false, in_config := false, in_wd := false,
    ignore := Ignore.all }

/-- A checkout whose nested repository has modified tracked files. -/
def exW8 : WorkdirState :=
  { path_exists := true, has_commits := true, openable := true,
    index_dirty := false, wt_modified := true, untracked := false }

/-- A path tracked by no source at all: fresh ground for the add flow. -/
def exS0 : SourceState :=
  { config := false, head_entry := Option.none, index_entry := Option.none,
    wd_marker := false, nested_head := Option.none }

/-- The state right after add-setup on `exS0`: declared and checked out,
nested repository still without commits. -/
def exS1 : SourceState :=
  { config := true, head_entry := Option.none, index_entry := Option.none,
    wd_marker := true, nested_head := Option.none }

/-- The state after one nested commit `c` and add-finalize on `exS1`. -/
def exS2 (c : Nat) : SourceState :=
  { config := true, head_entry := Option.none,
    index_entry := some (some c), wd_marker := true, nested_head := some c }

/-- A path whose only trace is an index gitlink entry carrying a null
identifier. -/
def exSnull : SourceState :=
  { config := false, head_entry := Option.none,
    index_entry := some Option.none, wd_marker := false,
    nested_head := Option.none }

/-- An untracked path whose working directory holds a nested-repository
marker. -/
def exS6 : SourceState :=
  { config := false, head_entry := Option.none, index_entry := Option.none,
    wd_marker := true, nested_head := Option.none }

/-- A configured, checked-out submodule whose nested HEAD resolves to 7. -/
def exS9 : SourceState :=
  { config := true, head_entry := Option.none, index_entry := Option.none,
    wd_marker := true, nested_head := some 7 }

/-! ## Bitmask toolkit -/

lemma and_high_eq_zero_iff (n k S : Nat) (hS : S < 2 ^ n) (hk : k ≤ n) :
    S &&& ((2 ^ n - 1) ^^^ (2 ^ k - 1)) = 0 ↔ S &&& (2 ^ k - 1) = S := by
  constructor
  · intro h0
    apply Nat.eq_of_testBit_eq
    intro i
    have hb : (S.testBit i && ((2 ^ n - 1) ^^^ (2 ^ k - 1)).testBit i) = false := by
      rw [← Nat.testBit_and, h0]
      exact Nat.zero_testBit i
    rw [Nat.testBit_xor, Nat.testBit_two_pow_sub_one,
      Nat.testBit_two_pow_sub_one] at hb
    rw [Nat.testBit_and, Nat.testBit_two_pow_sub_one]
    by_cases hik : i < k
    · simp [hik]
    · by_cases hin : i < n
      · simp only [hin, hik] at hb
        simp at hb
        simp [hb, hik]
      · have hfalse : S.testBit i = false :=
          Nat.testBit_lt_two_pow (lt_of_lt_of_le hS
            (Nat.pow_le_pow_right (by norm_num) (Nat.le_of_not_lt hin)))
        simp [hfalse]
  · intro hlow
    apply Nat.eq_of_testBit_eq
    intro i
    rw [Nat.testBit_and, Nat.testBit_xor, Nat.testBit_two_pow_sub_one,
      Nat.testBit_two_pow_sub_one, Nat.zero_testBit]
    by_cases hik : i < k
    · have hin : i < n := lt_of_lt_of_le hik hk
      simp [hik, hin]
    · have hfalse : S.testBit i = false := by
        have hcong := congrArg (fun t => t.testBit i) hlow
        simp only [Nat.testBit_and, Nat.testBit_two_pow_sub_one] at hcong
        simpa [hik] using hcong.symm
      simp [hfalse]

lemma contained_and_eq_zero {A M m : Nat} (hA : A &&& M = A) (h : M &&& m = 0) :
    A &&& m = 0 := by
  rw [← hA, Nat.and_assoc, h, Nat.and_zero]

lemma location_contained (d : Descriptor) :
    git_submodule_location d &&& GIT_SUBMODULE_STATUS__IN_FLAGS =
      git_submodule_location d := by
  rcases d with ⟨hid, iid, wid, a, b, c, e, ig⟩
  cases a <;> cases b <;> cases c <;> cases e <;>
    simp only [git_submodule_location, cond_true, cond_false] <;> decide

lemma indexStatus_contained (d : Descriptor) :
    indexStatus d &&& GIT_SUBMODULE_STATUS__INDEX_FLAGS = indexStatus d := by
  rcases d with ⟨hid, iid, wid, a, b, c, e, ig⟩
  rcases iid with _ | i <;> rcases hid with _ | h <;>
    simp only [indexStatus] <;> (try split_ifs) <;> decide

lemma wdStatus_contained (d : Descriptor) (w : WorkdirState) :
    wdStatus d w &&& 0x780 = wdStatus d w := by
  rcases d with ⟨hid, iid, wid, a, b, c, e, ig⟩
  rcases w with ⟨pe, hc, op, idr, wt, ut⟩
  cases pe <;> cases hc <;>
    rcases wid with _ | x <;> rcases iid with _ | i <;> rcases hid with _ | h <;>
    simp [wdStatus, baseId] <;> (try split_ifs) <;> decide

lemma deepStatus_contained (d : Descriptor) (w : WorkdirState) :
    deepStatus d w &&& 0x3800 = deepStatus d w := by
  rcases d with ⟨hid, iid, wid, a, b, c, e, ig⟩
  rcases w with ⟨pe, hc, op, idr, wt, ut⟩
  cases ig <;> cases op <;> cases idr <;> cases wt <;> cases ut <;>
    simp [deepStatus] <;> decide

lemma location_and_eq_zero (d : Descriptor) {m : Nat}
    (h : GIT_SUBMODULE_STATUS__IN_FLAGS &&& m = 0) :
    git_submodule_location d &&& m = 0 :=
  contained_and_eq_zero (location_contained d) h

lemma indexStatus_and_eq_zero (d : Descriptor) {m : Nat}
    (h : GIT_SUBMODULE_STATUS__INDEX_FLAGS &&& m = 0) :
    indexStatus d &&& m = 0 :=
  contained_and_eq_zero (indexStatus_contained d) h

lemma wdStatus_and_eq_zero (d : Descriptor) (w : WorkdirState) {m : Nat}
    (h : (0x780 : Nat) &&& m = 0) :
    wdStatus d w &&& m = 0 :=
  contained_and_eq_zero (wdStatus_contained d w) h

lemma deepStatus_and_eq_zero (d : Descriptor) (w : WorkdirState) {m : Nat}
    (h : (0x3800 : Nat) &&& m = 0) :
    deepStatus d w &&& m = 0 :=
  contained_and_eq_zero (deepStatus_contained d w) h

lemma status_all (d : Descriptor) (w : WorkdirState) (h : d.ignore = Ignore.all) :
    git_submodule_status d w = git_submodule_location d := by
  unfold git_submodule_status
  rw [if_pos h, Nat.or_zero]

lemma status_and_of_ne_all (d : Descriptor) (w : WorkdirState) (m : Nat)
    (h : d.ignore ≠ Ignore.all) :
    git_submodule_status d w &&& m =
      (git_submodule_location d &&& m) |||
        (((indexStatus d &&& m) ||| (wdStatus d w &&& m)) |||
          (deepStatus d w &&& m)) := by
  unfold git_submodule_status
  rw [if_neg h, Nat.and_distrib_right, Nat.and_distrib_right,
    Nat.and_distrib_right]

lemma status_and_deep (d : Descriptor) (w : WorkdirState) {m : Nat}
    (hin : GIT_SUBMODULE_STATUS__IN_FLAGS &&& m = 0)
    (hidx : GIT_SUBMODULE_STATUS__INDEX_FLAGS &&& m = 0)
    (hwd : (0x780 : Nat) &&& m = 0)
    (h : d.ignore ≠ Ignore.all) :
    git_submodule_status d w &&& m = deepStatus d w &&& m := by
  rw [status_and_of_ne_all d w m h, location_and_eq_zero d hin,
    indexStatus_and_eq_zero d hidx, wdStatus_and_eq_zero d w hwd]
  simp only [Nat.zero_or, Nat.or_zero]

lemma status_and_index (d : Descriptor) (w : WorkdirState)
    (h : d.ignore ≠ Ignore.all) :
    git_submodule_status d w &&& GIT_SUBMODULE_STATUS__INDEX_FLAGS =
      indexStatus d := by
  rw [status_and_of_ne_all d w _ h, location_and_eq_zero d (by decide),
    indexStatus_contained, wdStatus_and_eq_zero d w (by decide),
    deepStatus_and_eq_zero d w (by decide)]
  simp only [Nat.zero_or, Nat.or_zero]

lemma deepStatus_dirty (d : Descriptor) (w : WorkdirState)
    (h : d.ignore = Ignore.dirty) : deepStatus d w = 0 := by
  unfold deepStatus
  rw [h]

lemma deepStatus_all (d : Descriptor) (w : WorkdirState)
    (h : d.ignore = Ignore.all) : deepStatus d w = 0 := by
  unfold deepStatus
  rw [h]

lemma deepStatus_ne_zero_imp (d : Descriptor) (w : WorkdirState)
    (hne : deepStatus d w ≠ 0) :
    d.ignore = Ignore.none ∨ d.ignore = Ignore.untracked := by
  cases hig : d.ignore with
  | none => exact Or.inl rfl
  | untracked => exact Or.inr rfl
  | dirty => exact absurd (deepStatus_dirty d w hig) hne
  | all => exact absurd (deepStatus_all d w hig) hne

lemma deepStatus_untracked_no_untracked_bit (d : Descriptor) (w : WorkdirState)
    (h : d.ignore = Ignore.untracked) :
    deepStatus d w &&& GIT_SUBMODULE_STATUS_WD_UNTRACKED = 0 := by
  rcases w with ⟨pe, hc, op, idr, wt, ut⟩
  unfold deepStatus
  rw [h]
  cases op <;> cases idr <;> cases wt <;> simp <;> try decide

lemma deepStatus_untracked_wd_wd (d : Descriptor) (w : WorkdirState)
    (h : d.ignore = Ignore.untracked)
    (hne : deepStatus d w &&& GIT_SUBMODULE_STATUS_WD_WD_MODIFIED ≠ 0) :
    w.openable = true ∧ w.wt_modified = true := by
  rcases w with ⟨pe, hc, op, idr, wt, ut⟩
  unfold deepStatus at hne
  rw [h] at hne
  cases op <;> cases idr <;> cases wt <;>
    first
      | exact ⟨rfl, rfl⟩
      | (exfalso; apply hne; simp; try decide)

lemma deepStatus_none_wd_wd (d : Descriptor) (w : WorkdirState)
    (h : d.ignore = Ignore.none) (hop : w.openable = true)
    (hwt : w.wt_modified = true) :
    deepStatus d w &&& GIT_SUBMODULE_STATUS_WD_WD_MODIFIED =
      GIT_SUBMODULE_STATUS_WD_WD_MODIFIED := by
  rcases w with ⟨pe, hc, op, idr, wt, ut⟩
  unfold deepStatus
  rw [h]
  subst hop
  subst hwt
  cases idr <;> cases ut <;> simp <;> try decide

/-! ## The claims -/

/-- C1: for every submodule descriptor and every working-directory state —
hence for every ignore level NONE, UNTRACKED, DIRTY and ALL — the bitmask
returned by `git_submodule_location` equals the bitmask returned by
`git_submodule_status` masked to the four location bits, and the location
bitmask depends only on the four presence flags, not on the ignore
policy. -/
theorem C1_location_eq_status_masked (d : Descriptor) (w : WorkdirState) :
    git_submodule_location d =
      git_submodule_status d w &&& GIT_SUBMODULE_STATUS__IN_FLAGS ∧
    (∀ ig : Ignore, git_submodule_location { d with ignore := ig } =
      git_submodule_location d) := by
  constructor
  · by_cases hall : d.ignore = Ignore.all
    · rw [status_all d w hall, location_contained]
    · rw [status_and_of_ne_all d w _ hall, location_contained,
        indexStatus_and_eq_zero d (by decide),
        wdStatus_and_eq_zero d w (by decide),
        deepStatus_and_eq_zero d w (by decide)]
      simp only [Nat.zero_or, Nat.or_zero]
  · intro ig
    rfl

/-- C2: for every descriptor with ignore level below ALL,
`git_submodule_status` classifies index_id versus head_id into exactly
one of four mutually exclusive outcomes on the three index bits: both
present and equal leaves them clear; only index_id present yields exactly
INDEX_ADDED; only head_id present yields exactly INDEX_DELETED; both
present and different yields exactly INDEX_MODIFIED. -/
theorem C2_index_head_classification (d : Descriptor) (w : WorkdirState)
    (h : d.ignore ≠ Ignore.all) :
    ((∃ a, d.index_id = some a ∧ d.head_id = some a) →
      git_submodule_status d w &&& GIT_SUBMODULE_STATUS__INDEX_FLAGS = 0) ∧
    ((∃ a, d.index_id = some a) ∧ d.head_id = Option.none →
      git_submodule_status d w &&& GIT_SUBMODULE_STATUS__INDEX_FLAGS =
        GIT_SUBMODULE_STATUS_INDEX_ADDED) ∧
    (d.index_id = Option.none ∧ (∃ b, d.head_id = some b) →
      git_submodule_status d w &&& GIT_SUBMODULE_STATUS__INDEX_FLAGS =
        GIT_SUBMODULE_STATUS_INDEX_DELETED) ∧
    (∀ a b, d.index_id = some a → d.head_id = some b → a ≠ b →
      git_submodule_status d w &&& GIT_SUBMODULE_STATUS__INDEX_FLAGS =
        GIT_SUBMODULE_STATUS_INDEX_MODIFIED) := by
  rw [status_and_index d w h]
  refine ⟨?_, ?_, ?_, ?_⟩
  · rintro ⟨a, hi, hh⟩
    simp [indexStatus, hi, hh]
  · rintro ⟨⟨a, hi⟩, hh⟩
    simp [indexStatus, hi, hh]
  · rintro ⟨hi, b, hh⟩
    simp [indexStatus, hi, hh]
  · intro a b hi hh hab
    simp [indexStatus, hi, hh, hab]

/-- Witness for C2: index at 2, HEAD at 1, ignore below ALL — the masked
status is exactly INDEX_MODIFIED. -/
theorem C2_witness :
    git_submodule_status exD2 exW2 &&& GIT_SUBMODULE_STATUS__INDEX_FLAGS =
      GIT_SUBMODULE_STATUS_INDEX_MODIFIED :=
  (C2_index_head_classification exD2 exW2 (by decide)).2.2.2 2 1 rfl rfl
    (by decide)

/-- C3: the deep-inspection bits WD_INDEX_MODIFIED and WD_WD_MODIFIED can
be set only when the ignore level is NONE or UNTRACKED, the WD_UNTRACKED
bit only when the ignore level is exactly NONE; and with ignore DIRTY,
wd_id equal to index_id and an untracked file present, status sets
neither WD_UNTRACKED nor WD_WD_MODIFIED. -/
theorem C3_deep_bits_gated (d : Descriptor) (w : WorkdirState) :
    (git_submodule_status d w &&& GIT_SUBMODULE_STATUS_WD_INDEX_MODIFIED ≠ 0 →
      d.ignore = Ignore.none ∨ d.ignore = Ignore.untracked) ∧
    (git_submodule_status d w &&& GIT_SUBMODULE_STATUS_WD_WD_MODIFIED ≠ 0 →
      d.ignore = Ignore.none ∨ d.ignore = Ignore.untracked) ∧
    (git_submodule_status d w &&& GIT_SUBMODULE_STATUS_WD_UNTRACKED ≠ 0 →
      d.ignore = Ignore.none) ∧
    (d.ignore = Ignore.dirty → d.wd_id = d.index_id → w.untracked = true →
      git_submodule_status d w &&& GIT_SUBMODULE_STATUS_WD_UNTRACKED = 0 ∧
      git_submodule_status d w &&& GIT_SUBMODULE_STATUS_WD_WD_MODIFIED = 0) := by
  refine ⟨?_, ?_, ?_, ?_⟩
  · intro hne
    by_cases hall : d.ignore = Ignore.all
    · rw [status_all d w hall] at hne
      exact absurd (location_and_eq_zero d (by decide)) hne
    · rw [status_and_deep d w (by decide) (by decide) (by decide) hall] at hne
      exact deepStatus_ne_zero_imp d w
        (fun h0 => hne (by rw [h0]; exact Nat.zero_and _))
  · intro hne
    by_cases hall : d.ignore = Ignore.all
    · rw [status_all d w hall] at hne
      exact absurd (location_and_eq_zero d (by decide)) hne
    · rw [status_and_deep d w (by decide) (by decide) (by decide) hall] at hne
      exact deepStatus_ne_zero_imp d w
        (fun h0 => hne (by rw [h0]; exact Nat.zero_and _))
  · intro hne
    by_cases hall : d.ignore = Ignore.all
    · rw [status_all d w hall] at hne
      exact absurd (location_and_eq_zero d (by decide)) hne
    · rw [status_and_deep d w (by decide) (by decide) (by decide) hall] at hne
      have hne2 : deepStatus d w ≠ 0 :=
        fun h0 => hne (by rw [h0]; exact Nat.zero_and _)
      rcases deepStatus_ne_zero_imp d w hne2 with h1 | h2
      · exact h1
      · exact absurd (deepStatus_untracked_no_untracked_bit d w h2) hne
  · intro hdirty hwdid hunt
    have hall : d.ignore ≠ Ignore.all := by
      rw [hdirty]
      decide
    constructor
    · rw [status_and_deep d w (by decide) (by decide) (by decide) hall,
        deepStatus_dirty d w hdirty]
      exact Nat.zero_and _
    · rw [status_and_deep d w (by decide) (by decide) (by decide) hall,
        deepStatus_dirty d w hdirty]
      exact Nat.zero_and _

/-- Witness for C3: ignore DIRTY, wd_id equal to index_id, one untracked
file present — neither WD_UNTRACKED nor WD_WD_MODIFIED is set. -/
theorem C3_witness :
    git_submodule_status exD3 exW3 &&& GIT_SUBMODULE_STATUS_WD_UNTRACKED = 0 ∧
    git_submodule_status exD3 exW3 &&& GIT_SUBMODULE_STATUS_WD_WD_MODIFIED = 0 :=
  (C3_deep_bits_gated exD3 exW3).2.2.2 rfl rfl rfl

/-- C4: with ignore ALL, the status bitmask equals the location bitmask,
is independent of the on-disk state of the checkout (so an unreadable or
corrupt checkout cannot make the query fail or change its result), has no
bits outside the four location bits, and the nested repository is never
opened. -/
theorem C4_ignore_all (d : Descriptor) (w w' : WorkdirState)
    (h : d.ignore = Ignore.all) :
    git_submodule_status d w = git_submodule_location d ∧
    git_submodule_status d w = git_submodule_status d w' ∧
    git_submodule_status d w &&& GIT_SUBMODULE_STATUS__IN_FLAGS =
      git_submodule_status d w ∧
    status_opens_nested d = false := by
  refine ⟨status_all d w h, ?_, ?_, ?_⟩
  · rw [status_all d w h, status_all d w' h]
  · rw [status_all d w h, location_contained]
  · unfold status_opens_nested
    rw [h]

/-- Witness for C4: ignore ALL evaluated on an unreadable checkout and on
a healthy dirty checkout — same location-only bitmask either way. -/
theorem C4_witness :
    git_submodule_status exD4 exW4a = git_submodule_location exD4 ∧
    git_submodule_status exD4 exW4a = git_submodule_status exD4 exW4b ∧
    git_submodule_status exD4 exW4a &&& GIT_SUBMODULE_STATUS__IN_FLAGS =
      git_submodule_status exD4 exW4a ∧
    status_opens_nested exD4 = false :=
  C4_ignore_all exD4 exW4a exW4b rfl

/-- C8: monotonic dirtiness — if status with ignore UNTRACKED reports
WD_WD_MODIFIED for a given on-disk state, then status with ignore NONE on
the same state reports it too. -/
theorem C8_monotonic_dirtiness (d : Descriptor) (w : WorkdirState)
    (h : git_submodule_status { d with ignore := Ignore.untracked } w &&&
      GIT_SUBMODULE_STATUS_WD_WD_MODIFIED ≠ 0) :
    git_submodule_status { d with ignore := Ignore.none } w &&&
      GIT_SUBMODULE_STATUS_WD_WD_MODIFIED ≠ 0 := by
  have hu : ({ d with ignore := Ignore.untracked } : Descriptor).ignore ≠
      Ignore.all := fun hc => Ignore.noConfusion hc
  have hn : ({ d with ignore := Ignore.none } : Descriptor).ignore ≠
      Ignore.all := fun hc => Ignore.noConfusion hc
  rw [status_and_deep _ w (by decide) (by decide) (by decide) hu] at h
  rw [status_and_deep _ w (by decide) (by decide) (by decide) hn]
  obtain ⟨hop, hwt⟩ := deepStatus_untracked_wd_wd _ w rfl h
  rw [deepStatus_none_wd_wd _ w rfl hop hwt]
  decide

/-- Witness for C8: a checkout with modified tracked files — UNTRACKED
reports WD_WD_MODIFIED, and so does NONE. -/
theorem C8_witness :
    git_submodule_status { exD8 with ignore := Ignore.none } exW8 &&&
      GIT_SUBMODULE_STATUS_WD_WD_MODIFIED ≠ 0 :=
  C8_monotonic_dirtiness exD8 exW8 (by decide)

/-- C5, counterexample: the claim says "wd unmodified" holds exactly when
none of WD_ADDED, WD_DELETED, WD_MODIFIED are set.  The bitmask holding
only WD_WD_MODIFIED has none of those three bits set, yet the macro
returns false, because its mask also covers the three deep bits. -/
theorem C5_counterexample :
    GIT_SUBMODULE_STATUS_WD_WD_MODIFIED &&&
      (GIT_SUBMODULE_STATUS_WD_ADDED ||| GIT_SUBMODULE_STATUS_WD_DELETED |||
        GIT_SUBMODULE_STATUS_WD_MODIFIED) = 0 ∧
    GIT_SUBMODULE_STATUS_IS_WD_UNMODIFIED
      GIT_SUBMODULE_STATUS_WD_WD_MODIFIED = false := by
  decide

/-- C5, amended: for every status bitmask S (a C `unsigned int`, so below
2^32): "unmodified" holds exactly when no bits outside the four location
bits are set; "index unmodified" exactly when none of the three
index-vs-head bits are set; "wd unmodified" exactly when none of the wd
bits other than WD_UNINITIALIZED — that is, none of WD_ADDED, WD_DELETED,
WD_MODIFIED, WD_INDEX_MODIFIED, WD_WD_MODIFIED, WD_UNTRACKED — are set;
and "wd dirty" exactly when at least one of the three deep-wd bits is
set. -/
theorem C5_derived_predicates (S : Nat) (hS : S < 2 ^ 32) :
    (GIT_SUBMODULE_STATUS_IS_UNMODIFIED S = true ↔
      S &&& GIT_SUBMODULE_STATUS__IN_FLAGS = S) ∧
    (GIT_SUBMODULE_STATUS_IS_INDEX_UNMODIFIED S = true ↔
      S &&& (GIT_SUBMODULE_STATUS_INDEX_ADDED |||
        GIT_SUBMODULE_STATUS_INDEX_DELETED |||
        GIT_SUBMODULE_STATUS_INDEX_MODIFIED) = 0) ∧
    (GIT_SUBMODULE_STATUS_IS_WD_UNMODIFIED S = true ↔
      S &&& (GIT_SUBMODULE_STATUS_WD_ADDED |||
        GIT_SUBMODULE_STATUS_WD_DELETED |||
        GIT_SUBMODULE_STATUS_WD_MODIFIED |||
        GIT_SUBMODULE_STATUS_WD_INDEX_MODIFIED |||
        GIT_SUBMODULE_STATUS_WD_WD_MODIFIED |||
        GIT_SUBMODULE_STATUS_WD_UNTRACKED) = 0) ∧
    (GIT_SUBMODULE_STATUS_IS_WD_DIRTY S = true ↔
      S &&& (GIT_SUBMODULE_STATUS_WD_INDEX_MODIFIED |||
        GIT_SUBMODULE_STATUS_WD_WD_MODIFIED |||
        GIT_SUBMODULE_STATUS_WD_UNTRACKED) ≠ 0) := by
  refine ⟨?_, ?_, ?_, ?_⟩
  · show (S &&& ((2 ^ 32 - 1) ^^^ (2 ^ 4 - 1)) == 0) = true ↔
      S &&& (2 ^ 4 - 1) = S
    simp only [beq_iff_eq]
    exact and_high_eq_zero_iff 32 4 S hS (by norm_num)
  · show ((S &&& 0x0070) == 0) = true ↔ S &&& 0x0070 = 0
    simp
  · show ((S &&& 0x3F00) == 0) = true ↔ S &&& 0x3F00 = 0
    simp
  · show ((S &&& 0x3800) != 0) = true ↔ S &&& 0x3800 ≠ 0
    simp

/-- Witness for C5 (amended): instantiated at the bitmask 3. -/
theorem C5_witness :
    3 < 2 ^ 32 ∧
    (GIT_SUBMODULE_STATUS_IS_UNMODIFIED 3 = true ↔
      3 &&& GIT_SUBMODULE_STATUS__IN_FLAGS = 3) :=
  ⟨by norm_num, (C5_derived_predicates 3 (by norm_num)).1⟩

/-- C10: the three status-mask constants are pairwise disjoint and their
union is exactly the set of the fourteen defined status bits, i.e. bits
0 through 13, so every defined status flag belongs to exactly one of the
three derived-predicate groups. -/
theorem C10_masks_partition :
    GIT_SUBMODULE_STATUS__IN_FLAGS &&& GIT_SUBMODULE_STATUS__INDEX_FLAGS = 0 ∧
    GIT_SUBMODULE_STATUS__IN_FLAGS &&& GIT_SUBMODULE_STATUS__WD_FLAGS = 0 ∧
    GIT_SUBMODULE_STATUS__INDEX_FLAGS &&& GIT_SUBMODULE_STATUS__WD_FLAGS = 0 ∧
    (GIT_SUBMODULE_STATUS__IN_FLAGS ||| GIT_SUBMODULE_STATUS__INDEX_FLAGS |||
      GIT_SUBMODULE_STATUS__WD_FLAGS) =
      (GIT_SUBMODULE_STATUS_IN_HEAD ||| GIT_SUBMODULE_STATUS_IN_INDEX |||
        GIT_SUBMODULE_STATUS_IN_CONFIG ||| GIT_SUBMODULE_STATUS_IN_WD |||
        GIT_SUBMODULE_STATUS_INDEX_ADDED ||| GIT_SUBMODULE_STATUS_INDEX_DELETED |||
        GIT_SUBMODULE_STATUS_INDEX_MODIFIED |||
        GIT_SUBMODULE_STATUS_WD_UNINITIALIZED |||
        GIT_SUBMODULE_STATUS_WD_ADDED ||| GIT_SUBMODULE_STATUS_WD_DELETED |||
        GIT_SUBMODULE_STATUS_WD_MODIFIED |||
        GIT_SUBMODULE_STATUS_WD_INDEX_MODIFIED |||
        GIT_SUBMODULE_STATUS_WD_WD_MODIFIED |||
        GIT_SUBMODULE_STATUS_WD_UNTRACKED) ∧
    (GIT_SUBMODULE_STATUS__IN_FLAGS ||| GIT_SUBMODULE_STATUS__INDEX_FLAGS |||
      GIT_SUBMODULE_STATUS__WD_FLAGS) = 2 ^ 14 - 1 := by
  decide

/-- C6: when none of the declaration file/config, HEAD tree, or index
identify the submodule, lookup fails with ExistsUnregistered if a
nested-repository marker exists on disk at the path, with NotFound if
nothing matches at all, and the two failures are distinct. -/
theorem C6_lookup_error_cases (s : SourceState)
    (hc : s.config = false) (hh : s.head_entry = Option.none)
    (hi : s.index_entry = Option.none) :
    (s.wd_marker = true →
      git_submodule_lookup s = Except.error GitError.existsUnregistered) ∧
    (s.wd_marker = false →
      git_submodule_lookup s = Except.error GitError.notFound) ∧
    GitError.existsUnregistered ≠ GitError.notFound := by
  refine ⟨?_, ?_, by decide⟩
  · intro hw
    simp [git_submodule_lookup, hc, hh, hi, hw]
  · intro hw
    simp [git_submodule_lookup, hc, hh, hi, hw]

/-- Witness for C6: a marker-only path yields ExistsUnregistered, and the
two error codes are distinct. -/
theorem C6_witness :
    (git_submodule_lookup exS6 =
      Except.error GitError.existsUnregistered) ∧
    GitError.existsUnregistered ≠ GitError.notFound :=
  ⟨(C6_lookup_error_cases exS6 rfl rfl rfl).1 rfl,
    (C6_lookup_error_cases exS6 rfl rfl rfl).2.2⟩

/-- C7: starting from an untracked path, add-setup succeeds and yields
the provisional state; add-finalize on that state fails with InvalidState
because the nested repository has no commits; after one nested commit
`c`, add-finalize succeeds and the staged gitlink identifier equals the
nested repository's HEAD identifier `c`; a subsequent lookup yields a
descriptor with IN_INDEX true, IN_CONFIG true and IN_HEAD false. -/
theorem C7_add_flow (c : Nat) :
    git_submodule_add_setup exS0 = Except.ok exS1 ∧
    git_submodule_add_finalize exS1 = Except.error GitError.invalidState ∧
    git_submodule_add_finalize (commitInNested exS1 c) =
      Except.ok (exS2 c) ∧
    (exS2 c).index_entry = some (some c) ∧
    (exS2 c).nested_head = some c ∧
    ∃ d, git_submodule_lookup (exS2 c) = Except.ok d ∧
      d.in_index = true ∧ d.in_config = true ∧ d.in_head = false :=
  ⟨rfl, rfl, rfl, rfl, rfl, merge (exS2 c), rfl, rfl, rfl, rfl⟩

/-- C9: every reachable descriptor satisfies the invariant "wd_id present
implies in_wd true"; and presence flags are not derived solely from
identifier presence — reachable descriptors exist whose in_index (from a
gitlink entry with a null identifier) and whose in_wd (from a checked-out
but commit-less nested repository) are true while the corresponding
identifier is absent. -/
theorem C9_presence_invariant :
    (∀ d, Reachable d → d.wd_id.isSome = true → d.in_wd = true) ∧
    (∃ d, Reachable d ∧ d.in_index = true ∧ d.index_id = Option.none) ∧
    (∃ d, Reachable d ∧ d.in_wd = true ∧ d.wd_id = Option.none) := by
  refine ⟨?_, ?_, ?_⟩
  · intro d hd
    induction hd with
    | of_lookup s d hl =>
        intro hw
        unfold git_submodule_lookup at hl
        split at hl
        · injection hl with hmerge
          subst hmerge
          show s.wd_marker = true
          cases hm : s.wd_marker
          · simp [merge, hm] at hw
          · rfl
        · split at hl
          · cases hl
          · cases hl
    | of_add_setup s s' hok =>
        intro hw
        unfold git_submodule_add_setup at hok
        split at hok
        · cases hok
        · injection hok with hs
          subst hs
          rfl
    | of_set_ignore d ig hd ih =>
        intro hw
        exact ih hw
  · exact ⟨merge exSnull,
      Reachable.of_lookup exSnull (merge exSnull) rfl, rfl, rfl⟩
  · exact ⟨merge exS1, Reachable.of_lookup exS1 (merge exS1) rfl, rfl, rfl⟩

/-- Witness for C9: a configured, checked-out submodule whose nested HEAD
resolves — its descriptor is reachable, its wd_id is present and its
in_wd flag is true. -/
theorem C9_witness : (merge exS9).in_wd = true :=
  C9_presence_invariant.1 (merge exS9)
    (Reachable.of_lookup exS9 (merge exS9) rfl) rfl

end Submodule
